import Mathlib

/-!
Verification of the AR scene component (`src/components/ARScene.tsx`) of the
`next-js-ar-render` repository, as a shallow embedding in Lean 4.

The component is a single React function component wired to the browser's
WebXR Device API.  We embed its pure logic directly:

* the per-frame callback `onXRFrame` (lines 127–151) as a function from the
  frame's observable inputs (viewer pose, hit-test results) and the current
  model state to the next model state plus render/reschedule flags;
* the `select` and `end` event listeners (lines 115–125) as state
  transformers;
* `checkARSupport` (lines 13–24), `requestPermissions` (lines 26–45) and
  `startAR` (lines 93–157) with their asynchronous host calls modelled as
  explicit outcome parameters;
* the component's render function (lines 170–306) as a function from the
  React state to the set of controls shown;
* the whole mount as a transition system over user/host events, so that
  reachability claims about a mount can be stated and proved by induction
  over event traces.

Coordinates are JS numbers in the source; the frame callback only copies
them component-wise (no arithmetic), so they are modelled as integers.
-/

/-- A 3-component vector, as used for `model.position`. -/
structure Vec3 where
  x : Int
  y : Int
  z : Int
deriving DecidableEq, Repr

/-- A quaternion, as used for `model.quaternion`. -/
structure Quat where
  x : Int
  y : Int
  z : Int
  w : Int
deriving DecidableEq, Repr

/-- An `XRRigidTransform`: `transform.position` and `transform.orientation`. -/
structure XRTransform where
  position : Vec3
  orientation : Quat
deriving DecidableEq, Repr

/-- An `XRPose`, as returned by `getViewerPose` / `XRHitTestResult.getPose`. -/
structure XRPose where
  transform : XRTransform
deriving DecidableEq, Repr

/-- The mutable state of the loaded GLTF model node that the AR scene reads
and writes: its transform and its visibility flag (`model.visible`). -/
structure Model where
  position : Vec3
  quaternion : Quat
  visible : Bool
deriving DecidableEq, Repr

/-- An opaque `XRHitTestSource` handle. Its only operation is `cancel`. -/
structure XRHitTestSource where
deriving DecidableEq, Repr

/-- The observable inputs of one `XRFrame` as the callback reads them:
`frame.getViewerPose(referenceSpace)` (null when tracking is lost) and the
list `frame.getHitTestResults(hitTestSource)`, each result given by the
value of its `getPose(referenceSpace)` (null when the pose is unavailable). -/
structure XRFrameData where
  viewerPose : Option XRPose
  hitTestResults : List (Option XRPose)
deriving DecidableEq, Repr

/-- Outcome of one invocation of the per-frame callback: the model state
after the invocation (`none` while the asset has not loaded), whether
`renderer.render(scene, camera)` ran, and whether the callback re-scheduled
itself via `session.requestAnimationFrame(onXRFrame)`. -/
structure FrameOutcome where
  model : Option Model
  rendered : Bool
  rescheduled : Bool
deriving DecidableEq, Repr

/-- The per-frame callback `onXRFrame` (ARScene.tsx lines 127–151).

```
const xrViewerPose = frame.getViewerPose(referenceSpace);
if (xrViewerPose && hitTestSource) {
    const hitTestResults = frame.getHitTestResults(hitTestSource);
    if (hitTestResults.length > 0) {
        const hitPose = hitTestResults[0].getPose(referenceSpace);
        if (hitPose && model) {
            model.position.set(x, y, z);
            model.quaternion.set(x, y, z, w);
        }
    }
}
renderer.render(scene, camera);
session.requestAnimationFrame(onXRFrame);
```
-/
def onXRFrame (hitTestSource : Option XRHitTestSource) (frame : XRFrameData)
    (model : Option Model) : FrameOutcome :=
  let model' :=
    match frame.viewerPose, hitTestSource with
    | some _, some _ =>
      match frame.hitTestResults with
      | [] => model
      | firstResult :: _ =>
        match firstResult, model with
        | some hitPose, some m =>
          some { m with
            position := hitPose.transform.position
            quaternion := hitPose.transform.orientation }
        | _, _ => model
    | _, _ => model
  { model := model', rendered := true, rescheduled := true }

/-- The `select` listener (ARScene.tsx lines 115–120): if the model has
loaded, set `model.visible = true`; otherwise do nothing. -/
def selectListener (model : Option Model) : Option Model :=
  match model with
  | some m => some { m with visible := true }
  | none => none

/-- The `end` listener (ARScene.tsx lines 122–125): `hitTestSource?.cancel()`.
The state is the number of `cancel` invocations made so far on the source;
each firing of `end` performs one more `cancel` when a source exists. -/
def endListener (hitTestSource : Option XRHitTestSource) (cancelCount : Nat) :
    Nat :=
  match hitTestSource with
  | some _ => cancelCount + 1
  | none => cancelCount

/-- `cancel` count after the `end` event has fired `n` times. -/
def endFires (hitTestSource : Option XRHitTestSource) (n : Nat)
    (cancelCount : Nat) : Nat :=
  match n with
  | 0 => cancelCount
  | n + 1 => endFires hitTestSource n (endListener hitTestSource cancelCount)

/-- The React state of the `ARScene` component
(`useState` hooks, ARScene.tsx lines 7–11). -/
structure UIState where
  arSupported : Bool
  sessionStarted : Bool
  permissionGranted : Bool
  showPermissionPopup : Bool
  errorMessage : Option String
deriving DecidableEq, Repr

/-- The initial React state of a freshly mounted `ARScene`
(`useState(false)`, `useState(false)`, `useState(false)`, `useState(true)`,
`useState(null)`). -/
def initialUIState : UIState :=
  { arSupported := false
    sessionStarted := false
    permissionGranted := false
    showPermissionPopup := true
    errorMessage := none }

/-- What the main ternary of the render function shows
(ARScene.tsx lines 172–212):
`!arSupported ? <not supported> : !permissionGranted ? <Grant Permissions>
 : !sessionStarted ? <Start AR> : null`. -/
inductive MainControl where
  | notSupportedMsg
  | grantPermissionsButton
  | startARButton
  | nothing
deriving DecidableEq, Repr

/-- The main ternary of the render function (ARScene.tsx lines 172–212). -/
def mainControl (s : UIState) : MainControl :=
  if !s.arSupported then .notSupportedMsg
  else if !s.permissionGranted then .grantPermissionsButton
  else if !s.sessionStarted then .startARButton
  else .nothing

/-- Whether any "Grant Permissions" control is on screen: either the main
ternary's button (line 185) or the permission pop-up, which contains its own
"Grant Permissions" button and renders whenever `showPermissionPopup` is
true (ARScene.tsx lines 215–249). -/
def rendersGrantPermissions (s : UIState) : Bool :=
  (mainControl s == .grantPermissionsButton) || s.showPermissionPopup

/-- Whether the "Start AR" control is on screen (ARScene.tsx lines 198–211). -/
def rendersStartAR (s : UIState) : Bool :=
  mainControl s == .startARButton

/-- `checkARSupport` (ARScene.tsx lines 13–24): if `navigator.xr` exists, ask
`isSessionSupported("immersive-ar")` (one query) and use its answer; else set
support to false without querying.  Returns the support value together with
the number of capability queries issued. -/
def checkARSupport (xrPresent : Bool) (answer : Bool) : Bool × Nat :=
  if xrPresent then (answer, 1) else (false, 0)

/-- The state update the support probe performs: `setArSupported(...)` only;
it touches no other piece of state and surfaces no error. -/
def supportProbeUpdate (xrPresent : Bool) (answer : Bool) (s : UIState) :
    UIState :=
  { s with arSupported := (checkARSupport xrPresent answer).1 }

/-- `requestPermissions` (ARScene.tsx lines 26–45).  The two awaited host
calls are modelled as explicit outcomes: `cameraOutcome` for
`getUserMedia({ video: true })` and `sessionOutcome` for the throwaway
`requestSession("immersive-ar", ...)`.  The session request is only made when
`navigator.xr && arSupported`; on any rejection the `catch` sets
`errorMessage` and nothing else; on success it sets `permissionGranted` and
hides the popup.  Returns the new state and whether an immersive-ar session
request was issued. -/
def requestPermissions (xrPresent : Bool) (cameraOutcome : Except String Unit)
    (sessionOutcome : Except String Unit) (s : UIState) : UIState × Bool :=
  match cameraOutcome with
  | .error e =>
    ({ s with errorMessage := some ("Error requesting permissions: " ++ e) },
     false)
  | .ok _ =>
    if xrPresent && s.arSupported then
      match sessionOutcome with
      | .error e =>
        ({ s with
            errorMessage := some ("Error requesting permissions: " ++ e) },
         true)
      | .ok _ =>
        ({ s with permissionGranted := true, showPermissionPopup := false },
         true)
    else
      ({ s with permissionGranted := true, showPermissionPopup := false },
       false)

/-- The result of `startAR`'s setup sequence (ARScene.tsx lines 93–113): on
success, the (possibly absent) hit-test source. -/
structure SessionSetup where
  hitTestSource : Option XRHitTestSource
deriving DecidableEq, Repr

/-- `startAR`'s setup steps (ARScene.tsx lines 93–113): throw if
`navigator.xr` is absent; request the session (modelled outcome
`sessionOutcome`); obtain reference spaces; then
`session.requestHitTestSource?.({ space: viewerSpace })` — optional chaining,
so when the operation is absent the source is simply `undefined` and no
error is raised.  Any thrown error is caught at lines 154–156. -/
def startAR (xrPresent : Bool) (sessionOutcome : Except String Unit)
    (hitTestOpPresent : Bool) : Except String SessionSetup :=
  if !xrPresent then .error "WebXR API is not available."
  else
    match sessionOutcome with
    | .error e => .error e
    | .ok _ => .ok { hitTestSource := if hitTestOpPresent then some ⟨⟩ else none }

/-- The GLTF load error callback (ARScene.tsx lines 87–89):
`setErrorMessage("Error loading GLTF model: " + error.message)`.  The model
variable stays `null`. -/
def onLoadError (msg : String) (s : UIState) : UIState :=
  { s with errorMessage := some ("Error loading GLTF model: " ++ msg) }

/-- An event during a running session that can touch the model node: one
invocation of the per-frame callback, or one firing of `select`. -/
inductive SessionEvent where
  | frameEvent (frame : XRFrameData)
  | selectEvent
deriving DecidableEq, Repr

/-- Effect of one session event on the model variable. -/
def sessionStep (hitTestSource : Option XRHitTestSource)
    (model : Option Model) : SessionEvent → Option Model
  | .frameEvent frame => (onXRFrame hitTestSource frame model).model
  | .selectEvent => selectListener model

/-- The model variable after a sequence of session events. -/
def sessionRun (hitTestSource : Option XRHitTestSource) (model : Option Model)
    (es : List SessionEvent) : Option Model :=
  es.foldl (sessionStep hitTestSource) model

/-- An event observable by a mounted `ARScene` component: the support-probe
promise resolving, a click on any rendered "Grant Permissions" button (with
the outcomes of the two awaited host calls), a click on the rendered
"Start AR" button (with the outcome of the session request and whether
`requestHitTestSource` exists on the session), or closing the error popup. -/
inductive MountEvent where
  | supportResolved
  | grantClick (cameraOutcome : Except String Unit)
      (sessionOutcome : Except String Unit)
  | startClick (sessionOutcome : Except String Unit) (hitTestOpPresent : Bool)
  | closeError

/-- Whether a mount event is the support probe resolving. -/
def isSupportResolved : MountEvent → Bool
  | .supportResolved => true
  | _ => false

/-- State of one mount: the React state plus the number of immersive-ar
session requests the mount has issued to the host so far. -/
structure MountState where
  ui : UIState
  sessionRequests : Nat
deriving DecidableEq, Repr

/-- The state of a freshly mounted component: initial React state, and no
session requests issued. -/
def initialMount : MountState :=
  { ui := initialUIState, sessionRequests := 0 }

/-- One step of the mount.  `xrPresent` says whether `navigator.xr` exists
and `answer` is what `isSessionSupported("immersive-ar")` resolves to; both
are fixed properties of the host for the mount's lifetime.

* `supportResolved`: the probe's `setArSupported` lands (one query at most,
  see `checkARSupport`).
* `grantClick`: possible only while some "Grant Permissions" button is on
  screen; runs `requestPermissions`, counting the immersive-ar session
  request it makes when `navigator.xr && arSupported`.
* `startClick`: possible only while the "Start AR" button is on screen; sets
  `sessionStarted`, whereupon the `[sessionStarted, arSupported]` effect
  runs `startAR`.  `startAR` reaches `requestSession` exactly when
  `navigator.xr` exists (it throws first otherwise); on a thrown error the
  `catch` sets `errorMessage` (ARScene.tsx lines 154–156).
* `closeError`: the error popup's Close button sets `errorMessage` to null.
-/
def mountStep (xrPresent answer : Bool) (s : MountState) :
    MountEvent → MountState
  | .supportResolved =>
    { s with ui := supportProbeUpdate xrPresent answer s.ui }
  | .grantClick cameraOutcome sessionOutcome =>
    if rendersGrantPermissions s.ui then
      let r := requestPermissions xrPresent cameraOutcome sessionOutcome s.ui
      { ui := r.1
        sessionRequests := s.sessionRequests + (if r.2 then 1 else 0) }
    else s
  | .startClick sessionOutcome hitTestOpPresent =>
    if rendersStartAR s.ui then
      let ui1 := { s.ui with sessionStarted := true }
      let ui2 :=
        match startAR xrPresent sessionOutcome hitTestOpPresent with
        | .error e =>
          { ui1 with errorMessage := some ("Failed to start AR session: " ++ e) }
        | .ok _ => ui1
      { ui := ui2
        sessionRequests := s.sessionRequests + (if xrPresent then 1 else 0) }
    else s
  | .closeError => { s with ui := { s.ui with errorMessage := none } }

/-- The mount state after a sequence of events. -/
def mountRun (xrPresent answer : Bool) (s : MountState)
    (es : List MountEvent) : MountState :=
  es.foldl (mountStep xrPresent answer) s

/-- Claim C1: when the frame yields a viewer pose, a hit-test source exists,
the hit-test result list is non-empty, the first result's pose is non-null
and the model has loaded, the callback overwrites the model's position and
orientation component-wise with the first hit pose's transform — for every
tail `rest`, so the first result is used with no sorting or tie-break — and
then renders and re-schedules. -/
theorem onXRFrame_applies_first_hit (src : XRHitTestSource) (vp : XRPose)
    (hitPose : XRPose) (rest : List (Option XRPose)) (m : Model) :
    onXRFrame (some src)
      { viewerPose := some vp, hitTestResults := some hitPose :: rest }
      (some m)
    = { model := some { m with position := hitPose.transform.position,
                               quaternion := hitPose.transform.orientation },
        rendered := true, rescheduled := true } := rfl

/-- Claim C2: on a frame with no viewer pose, no hit-test source, an empty
hit-test result list, or a null pose for the first result, the model (its
position and quaternion included) is left exactly as it was. -/
theorem onXRFrame_retains_model_without_hit (src : Option XRHitTestSource)
    (frame : XRFrameData) (model : Option Model)
    (h : frame.viewerPose = none ∨ src = none ∨ frame.hitTestResults = []
         ∨ frame.hitTestResults.head? = some none) :
    (onXRFrame src frame model).model = model := by
  obtain ⟨vp, results⟩ := frame
  rcases h with h | h | h | h
  · simp only at h
    subst h
    cases src <;> rfl
  · subst h
    cases vp <;> rfl
  · simp only at h
    subst h
    cases vp <;> cases src <;> rfl
  · simp only at h
    cases vp <;> cases src <;> try rfl
    cases results with
    | nil => simp at h
    | cons r rest =>
      simp at h
      subst h
      cases model <;> rfl

/-- Witness for C2 at a concrete input: no hit-test source, viewer pose
present, model loaded — the model is unchanged. -/
theorem onXRFrame_retains_model_without_hit_witness :
    (onXRFrame none
      { viewerPose := some ⟨⟨⟨1, 2, 3⟩, ⟨0, 0, 0, 1⟩⟩⟩, hitTestResults := [] }
      (some { position := ⟨5, 6, 7⟩, quaternion := ⟨0, 1, 0, 0⟩,
              visible := true })).model
    = some { position := ⟨5, 6, 7⟩, quaternion := ⟨0, 1, 0, 0⟩,
             visible := true } :=
  onXRFrame_retains_model_without_hit none _ _ (Or.inr (Or.inl rfl))

/-- Claim C7: when the GLTF load rejects, the error callback surfaces a
message containing the load failure text and touches no other state (so the
session start proceeds as before), and every frame with the model still
unloaded takes the model-not-loaded branch: it renders and re-schedules
without touching any model. -/
theorem loadError_surfaced_session_proceeds (msg : String) (s : UIState)
    (src : Option XRHitTestSource) (frame : XRFrameData) :
    (onLoadError msg s).errorMessage
      = some ("Error loading GLTF model: " ++ msg)
  ∧ (onLoadError msg s).sessionStarted = s.sessionStarted
  ∧ (onLoadError msg s).arSupported = s.arSupported
  ∧ (onLoadError msg s).permissionGranted = s.permissionGranted
  ∧ onXRFrame src frame none
      = { model := none, rendered := true, rescheduled := true } := by
  refine ⟨rfl, rfl, rfl, rfl, ?_⟩
  obtain ⟨vp, results⟩ := frame
  cases vp <;> cases src <;> try rfl
  cases results with
  | nil => rfl
  | cons r rest => cases r <;> rfl

/-- Claim C9: when the session exposes no `requestHitTestSource` operation,
`startAR`'s setup still completes without error (the optional call just
yields no source), and every frame callback with no hit-test source renders
and re-schedules while leaving the model state untouched — the transform is
never updated on any frame. -/
theorem hitTestSource_absent_safe (frame : XRFrameData)
    (model : Option Model) :
    startAR true (.ok ()) false = .ok { hitTestSource := none }
  ∧ onXRFrame none frame model
      = { model := model, rendered := true, rescheduled := true } := by
  refine ⟨rfl, ?_⟩
  obtain ⟨vp, results⟩ := frame
  cases vp <;> rfl

/-- Helper: one frame callback on a loaded model yields a loaded model with
the same visibility flag (the frame branch only writes position and
quaternion). -/
theorem onXRFrame_preserves_visible (src : Option XRHitTestSource)
    (frame : XRFrameData) (m : Model) :
    ∃ m', (onXRFrame src frame (some m)).model = some m'
      ∧ m'.visible = m.visible := by
  obtain ⟨vp, results⟩ := frame
  cases vp with
  | none => cases src <;> exact ⟨m, rfl, rfl⟩
  | some p =>
    cases src with
    | none => exact ⟨m, rfl, rfl⟩
    | some s =>
      cases results with
      | nil => exact ⟨m, rfl, rfl⟩
      | cons r rest =>
        cases r with
        | none => exact ⟨m, rfl, rfl⟩
        | some hp =>
          exact ⟨{ m with position := hp.transform.position,
                          quaternion := hp.transform.orientation }, rfl, rfl⟩

/-- Helper: a visible loaded model stays loaded and visible across any one
session event (frame callback or `select`). -/
theorem sessionStep_keeps_visible (src : Option XRHitTestSource) (m : Model)
    (hv : m.visible = true) (e : SessionEvent) :
    ∃ m', sessionStep src (some m) e = some m' ∧ m'.visible = true := by
  cases e with
  | frameEvent f =>
    obtain ⟨m', h1, h2⟩ := onXRFrame_preserves_visible src f m
    exact ⟨m', h1, h2.trans hv⟩
  | selectEvent => exact ⟨{ m with visible := true }, rfl, rfl⟩

/-- Helper: a visible loaded model stays loaded and visible across any
sequence of session events. -/
theorem sessionRun_keeps_visible (src : Option XRHitTestSource) (m : Model)
    (hv : m.visible = true) (es : List SessionEvent) :
    ∃ m', sessionRun src (some m) es = some m' ∧ m'.visible = true := by
  induction es generalizing m with
  | nil => exact ⟨m, rfl, hv⟩
  | cons e es ih =>
    obtain ⟨m', h1, h2⟩ := sessionStep_keeps_visible src m hv e
    obtain ⟨m'', h3, h4⟩ := ih m' h2
    refine ⟨m'', ?_, h4⟩
    simpa [sessionRun, h1] using h3

/-- Claim C3: `select` on a loaded model makes it visible; `select` before
the model has loaded changes nothing; the listener is idempotent; and once
visible the model stays visible across every subsequent frame callback and
`select` event. -/
theorem select_shows_model_and_stays_visible (src : Option XRHitTestSource)
    (m : Model) (x : Option Model) (es : List SessionEvent) :
    selectListener none = none
  ∧ selectListener (some m) = some { m with visible := true }
  ∧ selectListener (selectListener x) = selectListener x
  ∧ (m.visible = true →
      ∃ m', sessionRun src (some m) es = some m' ∧ m'.visible = true) := by
  refine ⟨rfl, rfl, ?_, fun hv => sessionRun_keeps_visible src m hv es⟩
  cases x <;> rfl

/-- Witness for C3 at a concrete input: a visible model stays loaded and
visible across a `select` followed by a no-pose frame. -/
theorem select_shows_model_and_stays_visible_witness :
    ∃ m', sessionRun none
        (some { position := ⟨0, 0, 0⟩, quaternion := ⟨0, 0, 0, 1⟩,
                visible := true })
        [SessionEvent.selectEvent,
         SessionEvent.frameEvent { viewerPose := none, hitTestResults := [] }]
      = some m' ∧ m'.visible = true :=
  (select_shows_model_and_stays_visible none
    { position := ⟨0, 0, 0⟩, quaternion := ⟨0, 0, 0, 1⟩, visible := true }
    none
    [SessionEvent.selectEvent,
     SessionEvent.frameEvent { viewerPose := none, hitTestResults := [] }]
  ).2.2.2 rfl

/-- Counterexample to claim C4 as stated: the end listener has no guard, so
when the `end` event fires twice with a hit-test source present, `cancel`
has been invoked twice — not exactly once. -/
theorem endListener_cancels_twice_on_double_end :
    endFires (some ⟨⟩) 2 0 = 2 ∧ (2 : Nat) ≠ 1 := by decide

/-- Claim C4 (amended): for a session in which a hit-test source was
obtained, each firing of `end` invokes the source's cancellation once more —
after `n` firings, `cancel` has been invoked `n` times.  Cancellation is
invoked exactly once only when the platform fires `end` exactly once; the
listener itself does not guard against repeated firing. -/
theorem endListener_cancel_per_fire (src : XRHitTestSource) (n c : Nat) :
    endFires (some src) n c = c + n := by
  induction n generalizing c with
  | zero => rfl
  | succ k ih =>
    show endFires (some src) k (c + 1) = c + (k + 1)
    rw [ih]
    omega

/-- Helper: `requestPermissions` never changes `arSupported`. -/
theorem requestPermissions_arSupported (xrPresent : Bool)
    (cam sess : Except String Unit) (s : UIState) :
    (requestPermissions xrPresent cam sess s).1.arSupported = s.arSupported := by
  cases cam with
  | error msg => rfl
  | ok u =>
    simp only [requestPermissions]
    split
    · cases sess <;> rfl
    · rfl

/-- Helper: with `arSupported` false, `requestPermissions` issues no
immersive-ar session request (the `navigator.xr && arSupported` test fails). -/
theorem requestPermissions_no_request_when_unsupported (xrPresent : Bool)
    (cam sess : Except String Unit) (s : UIState)
    (hs : s.arSupported = false) :
    (requestPermissions xrPresent cam sess s).2 = false := by
  cases cam with
  | error msg => rfl
  | ok u => simp [requestPermissions, hs]

/-- Helper: on a host whose capability query resolves false, every mount
event preserves "support state false and no session request issued". -/
theorem mountStep_keeps_unsupported (xrPresent answer : Bool)
    (h : (checkARSupport xrPresent answer).1 = false) (s : MountState)
    (hs : s.ui.arSupported = false) (hr : s.sessionRequests = 0)
    (e : MountEvent) :
    (mountStep xrPresent answer s e).ui.arSupported = false
    ∧ (mountStep xrPresent answer s e).sessionRequests = 0 := by
  cases e with
  | supportResolved =>
    exact ⟨by simp [mountStep, supportProbeUpdate, h], by simp [mountStep, hr]⟩
  | grantClick cam sess =>
    by_cases hg : rendersGrantPermissions s.ui = true
    · constructor
      · simp [mountStep, hg, requestPermissions_arSupported, hs]
      · simp [mountStep, hg, hr,
          requestPermissions_no_request_when_unsupported xrPresent cam sess s.ui hs]
    · simp only [Bool.not_eq_true] at hg
      simp [mountStep, hg, hs, hr]
  | startClick so ht =>
    have hns : rendersStartAR s.ui = false := by
      simp [rendersStartAR, mainControl, hs]
    simp [mountStep, hns, hs, hr]
  | closeError => exact ⟨hs, hr⟩

/-- Helper: the invariant of `mountStep_keeps_unsupported`, folded over a
whole event trace. -/
theorem mountRun_keeps_unsupported (xrPresent answer : Bool)
    (h : (checkARSupport xrPresent answer).1 = false) (es : List MountEvent)
    (s : MountState) (hs : s.ui.arSupported = false)
    (hr : s.sessionRequests = 0) :
    (mountRun xrPresent answer s es).ui.arSupported = false
    ∧ (mountRun xrPresent answer s es).sessionRequests = 0 := by
  induction es generalizing s with
  | nil => exact ⟨hs, hr⟩
  | cons e es ih =>
    obtain ⟨h1, h2⟩ := mountStep_keeps_unsupported xrPresent answer h s hs hr e
    simpa [mountRun] using ih (mountStep xrPresent answer s e) h1 h2

/-- Counterexample to claim C5 as stated: on a mount whose capability query
resolves false (here `navigator.xr` is absent), the state reached after the
probe resolves still renders a "Grant Permissions" control, because the
permission explainer popup — which contains its own "Grant Permissions"
button — shows from mount regardless of support. -/
theorem grant_control_renders_when_unsupported :
    (checkARSupport false false).1 = false
  ∧ rendersGrantPermissions
      (mountRun false false initialMount [MountEvent.supportResolved]).ui
    = true := by decide

/-- Claim C5 (amended): on every mount whose capability query resolves
false, the main ternary only ever shows the not-supported message (its
"Grant Permissions" and "Start AR" buttons never render) and no immersive-ar
session request is ever issued; the permission explainer popup, however,
renders from mount (with its own "Grant Permissions" button) until
dismissed, regardless of support. -/
theorem unsupported_mount_never_requests_session (xrPresent answer : Bool)
    (es : List MountEvent)
    (h : (checkARSupport xrPresent answer).1 = false) :
    mainControl (mountRun xrPresent answer initialMount es).ui
      = MainControl.notSupportedMsg
  ∧ (mountRun xrPresent answer initialMount es).sessionRequests = 0
  ∧ rendersGrantPermissions initialMount.ui = true := by
  obtain ⟨h1, h2⟩ :=
    mountRun_keeps_unsupported xrPresent answer h es initialMount rfl rfl
  exact ⟨by simp [mainControl, h1], h2, rfl⟩

/-- Witness for C5 (amended) at a concrete input: `navigator.xr` absent, one
probe resolution. -/
theorem unsupported_mount_never_requests_session_witness :
    mainControl
        (mountRun false false initialMount [MountEvent.supportResolved]).ui
      = MainControl.notSupportedMsg
  ∧ (mountRun false false initialMount
        [MountEvent.supportResolved]).sessionRequests = 0
  ∧ rendersGrantPermissions initialMount.ui = true :=
  unsupported_mount_never_requests_session false false
    [MountEvent.supportResolved] rfl

/-- Claim C6: when the camera request succeeds and — whenever
`navigator.xr && arSupported` holds — the throwaway session request also
succeeds, `requestPermissions` flips `permissionGranted` to true and
dismisses the explainer popup; when the camera request rejects, or the
throwaway session request rejects, it sets an error message containing the
failure detail and leaves `permissionGranted` exactly as it was. -/
theorem requestPermissions_outcome (xrPresent : Bool)
    (cam sess : Except String Unit) (s : UIState) :
    (cam = .ok () → ((xrPresent && s.arSupported) = true → sess = .ok ()) →
      (requestPermissions xrPresent cam sess s).1.permissionGranted = true
      ∧ (requestPermissions xrPresent cam sess s).1.showPermissionPopup
          = false)
  ∧ (∀ msg, cam = .error msg →
      (requestPermissions xrPresent cam sess s).1.errorMessage
        = some ("Error requesting permissions: " ++ msg)
      ∧ (requestPermissions xrPresent cam sess s).1.permissionGranted
        = s.permissionGranted)
  ∧ (∀ msg, cam = .ok () → (xrPresent && s.arSupported) = true →
      sess = .error msg →
      (requestPermissions xrPresent cam sess s).1.errorMessage
        = some ("Error requesting permissions: " ++ msg)
      ∧ (requestPermissions xrPresent cam sess s).1.permissionGranted
        = s.permissionGranted) := by
  refine ⟨?_, ?_, ?_⟩
  · intro hc hsess
    subst hc
    by_cases hb : (xrPresent && s.arSupported) = true
    · have := hsess hb
      subst this
      simp [requestPermissions, hb]
    · simp only [Bool.not_eq_true] at hb
      simp [requestPermissions, hb]
  · intro msg hc
    subst hc
    exact ⟨rfl, rfl⟩
  · intro msg hc hb hsess
    subst hc
    subst hsess
    simp [requestPermissions, hb]

/-- Witness for C6 at a concrete input: camera granted, AR not supported so
the session step is skipped — permission granted and popup dismissed. -/
theorem requestPermissions_outcome_witness :
    (requestPermissions false (.ok ()) (.ok ())
        initialUIState).1.permissionGranted = true
    ∧ (requestPermissions false (.ok ()) (.ok ())
        initialUIState).1.showPermissionPopup = false :=
  (requestPermissions_outcome false (.ok ()) (.ok ()) initialUIState).1 rfl
    (fun _ => rfl)

/-- Claim C8: with `navigator.xr` absent the support probe resolves support
to false without issuing any capability query and without surfacing an
error (it touches only `arSupported`); one run of the probe issues at most
one capability query, and the probe effect runs once per mount (its
dependency list is empty), so at most one query is issued per mount. -/
theorem checkARSupport_absent_xr (answer a p : Bool) (s : UIState) :
    checkARSupport false answer = (false, 0)
  ∧ (checkARSupport p a).2 ≤ 1
  ∧ (supportProbeUpdate false answer s).errorMessage = s.errorMessage
  ∧ (supportProbeUpdate false answer s).arSupported = false := by
  refine ⟨rfl, ?_, rfl, rfl⟩
  cases p <;> simp [checkARSupport]

/-- Helper: no mount event other than the probe's resolution changes
`arSupported`. -/
theorem mountStep_arSupported_stable (xrPresent answer : Bool)
    (s : MountState) (e : MountEvent) (he : isSupportResolved e = false)
    (hs : s.ui.arSupported = false) :
    (mountStep xrPresent answer s e).ui.arSupported = false := by
  cases e with
  | supportResolved => simp [isSupportResolved] at he
  | grantClick cam sess =>
    by_cases hg : rendersGrantPermissions s.ui = true
    · simp [mountStep, hg, requestPermissions_arSupported, hs]
    · simp only [Bool.not_eq_true] at hg
      simp [mountStep, hg, hs]
  | startClick so ht =>
    have hns : rendersStartAR s.ui = false := by
      simp [rendersStartAR, mainControl, hs]
    simp [mountStep, hns, hs]
  | closeError => exact hs

/-- Helper: over a trace with no probe resolution, `arSupported` stays
false. -/
theorem mountRun_arSupported_stable (xrPresent answer : Bool)
    (es : List MountEvent) (he : ∀ e ∈ es, isSupportResolved e = false)
    (s : MountState) (hs : s.ui.arSupported = false) :
    (mountRun xrPresent answer s es).ui.arSupported = false := by
  induction es generalizing s with
  | nil => exact hs
  | cons e es ih =>
    have h1 := mountStep_arSupported_stable xrPresent answer s e
      (he e (List.mem_cons_self e es)) hs
    have h2 := ih (fun x hx => he x (List.mem_cons_of_mem e hx))
      (mountStep xrPresent answer s e) h1
    simpa [mountRun] using h2

/-- Claim C10: `arSupported` is initialized to false, so the freshly mounted
component renders the not-supported message; over any trace in which the
capability query has not yet resolved — even on a host where it will
resolve true — the main control stays the not-supported message; and the
supported-path controls can only render in a state with `arSupported`
true. -/
theorem arSupported_false_until_probe_resolves (answer : Bool)
    (es : List MountEvent) (he : ∀ e ∈ es, isSupportResolved e = false)
    (s : UIState) :
    initialUIState.arSupported = false
  ∧ mainControl initialUIState = MainControl.notSupportedMsg
  ∧ mainControl (mountRun true answer initialMount es).ui
      = MainControl.notSupportedMsg
  ∧ (mainControl s = MainControl.grantPermissionsButton
      ∨ mainControl s = MainControl.startARButton → s.arSupported = true) := by
  refine ⟨rfl, rfl, ?_, ?_⟩
  · have h1 := mountRun_arSupported_stable true answer es he initialMount rfl
    simp [mainControl, h1]
  · intro hc
    by_contra hfalse
    simp only [Bool.not_eq_true] at hfalse
    rcases hc with hc | hc <;> simp [mainControl, hfalse] at hc

/-- Witness for C10 at a concrete input: an empty trace on a host that will
answer true. -/
theorem arSupported_false_until_probe_resolves_witness :
    initialUIState.arSupported = false
  ∧ mainControl initialUIState = MainControl.notSupportedMsg
  ∧ mainControl (mountRun true true initialMount []).ui
      = MainControl.notSupportedMsg
  ∧ (mainControl initialUIState = MainControl.grantPermissionsButton
      ∨ mainControl initialUIState = MainControl.startARButton →
      initialUIState.arSupported = true) :=
  arSupported_false_until_probe_resolves true [] (by simp) initialUIState
